import Mathlib

/-!
Formal model of the goDegen repository's trade quoting and execution logic.

The definitions below are shallow embeddings of:
* the `GoDegen` trading contract (src/contracts/GoDegen.sol, the final
  version of the file: `findBestPool`, `validateTradeParams`,
  `getQuoteFromPool`, `executeSwap`, `executeManualTrade`);
* the front-end trade pipeline of
  src/frontend/app/components/TradingInterface.tsx (`executeTrade`, the
  main variant starting at line 1026) and the quote-resolution stage of
  src/frontend/app/components/AutoTrading.tsx (lines 365-455);
* the `PortfolioManager` custody contract
  (src/contracts/PortfolioManager.sol, `withdraw`).

External chain state (factory pools, token balances, quoter simulations,
Permit2 transfers, router swaps, transaction receipts) is abstracted as an
environment of response functions; machine integers are natural numbers
with explicit `2 ^ 256` overflow reverts where Solidity 0.8 checked
arithmetic can overflow.
-/

namespace GoDegen

/-- Ethereum addresses are modelled as natural numbers; `0` is the zero
address (`address(0)`). -/
abbrev Address := Nat

/-- GoDegen.sol line 347: `uint256 public constant MAX_SLIPPAGE = 5000;`
(basis points). -/
def MAX_SLIPPAGE : Nat := 5000

/-- GoDegen.sol line 348: `uint256 public constant MIN_TRADE_AMOUNT = 1e5;`
(0.1 USDC). -/
def MIN_TRADE_AMOUNT : Nat := 100000

/-- Modulus of Solidity's `uint256`. -/
def UINT256 : Nat := 2 ^ 256

/-- Modulus of Solidity's `uint160` (used by the `uint160(_amountIn)` cast
in `executeManualTrade`). -/
def UINT160 : Nat := 2 ^ 160

/-- GoDegen.sol lines 405-410: the fixed preferred fee-tier order of
`findBestPool`: `[uint24(500), uint24(3000), uint24(100), uint24(10000)]`
(0.05%, 0.3%, 0.01%, 1%). -/
def preferredFees : List Nat := [500, 3000, 100, 10000]

/-- Outcome of an external Solidity call: success, `revert(reason)` caught
by `catch Error(string memory reason)`, or a low-level revert caught by the
bare `catch`. -/
inductive CallResult (α : Type) where
  | success (v : α)
  | revertWith (reason : String)
  | revertRaw
  deriving Repr, DecidableEq

/-- Read-only/external chain state seen by one `GoDegen` contract call.
Each field abstracts one external collaborator:
`getPool tokenIn tokenOut fee` is `factory.getPool` (0 = no pool),
`balanceOf token holder` is `IERC20(token).balanceOf(holder)`,
`quoteSingle tokenIn tokenOut fee amountIn` is
`quoter.quoteExactInputSingle` (with `sqrtPriceLimitX96 = 0`),
`permitTransfer amount` is `permit2.transferFrom` of `amount` tokens,
`swap tokenIn tokenOut fee amountIn minOut recipient` is
`swapRouter.exactInputSingle`, and `whitelisted` is the
`whitelistedTokens` mapping. -/
structure ChainEnv where
  getPool : Address → Address → Nat → Address
  balanceOf : Address → Address → Nat
  quoteSingle : Address → Address → Nat → Nat → CallResult Nat
  permitTransfer : Nat → CallResult Unit
  swap : Address → Address → Nat → Nat → Nat → Address → CallResult Nat
  whitelisted : Address → Bool

/-- Accumulator of the first loop of `findBestPool` (GoDegen.sol lines
401-427): `bestLiquidity`, the named returns `pool` and `fee`, and
`foundPool`. -/
structure BestPoolAcc where
  bestLiquidity : Nat
  pool : Address
  fee : Nat
  foundPool : Bool
  deriving Repr, DecidableEq

/-- First loop of `findBestPool` (GoDegen.sol lines 412-427): scan the fee
tiers in preferred order, keeping a candidate only when its observed
liquidity (`IERC20(_tokenIn).balanceOf(currentPool)`) is strictly greater
than the best seen so far. -/
def findBestLoop (env : ChainEnv) (tokenIn tokenOut : Address) :
    List Nat → BestPoolAcc → BestPoolAcc
  | [], acc => acc
  | f :: rest, acc =>
    let currentPool := env.getPool tokenIn tokenOut f
    if currentPool ≠ 0 then
      let liquidity := env.balanceOf tokenIn currentPool
      if liquidity > acc.bestLiquidity then
        findBestLoop env tokenIn tokenOut rest
          ⟨liquidity, currentPool, f, true⟩
      else
        findBestLoop env tokenIn tokenOut rest acc
    else
      findBestLoop env tokenIn tokenOut rest acc

/-- Fallback loop of `findBestPool` (GoDegen.sol lines 430-444): if no pool
was kept by the first loop, take the first existing pool in preferred
order. -/
def firstExistingPool (env : ChainEnv) (tokenIn tokenOut : Address) :
    List Nat → Option (Address × Nat)
  | [] => none
  | f :: rest =>
    let currentPool := env.getPool tokenIn tokenOut f
    if currentPool ≠ 0 then some (currentPool, f)
    else firstExistingPool env tokenIn tokenOut rest

/-- GoDegen.sol lines 397-449: `findBestPool`. Returns the chosen pool and
fee, or the revert reason. -/
def findBestPool (env : ChainEnv) (tokenIn tokenOut : Address) :
    Except String (Address × Nat) :=
  let acc := findBestLoop env tokenIn tokenOut preferredFees ⟨0, 0, 0, false⟩
  let acc' :=
    if acc.foundPool then acc
    else
      match firstExistingPool env tokenIn tokenOut preferredFees with
      | some (p, f) => ⟨acc.bestLiquidity, p, f, true⟩
      | none => acc
  if acc'.foundPool then
    if acc'.pool ≠ 0 then .ok (acc'.pool, acc'.fee)
    else .error "Invalid pool address"
  else .error "No pool found for token pair"

/-- GoDegen.sol lines 452-462: `validateTradeParams` (whitelist check, then
minimum-amount check). Returns the revert reason when a `require` fails. -/
def validateTradeParams (env : ChainEnv) (tokenIn tokenOut : Address)
    (amountIn : Nat) : Except String Unit :=
  if ¬(env.whitelisted tokenIn && env.whitelisted tokenOut) then
    .error "Tokens not whitelisted"
  else if amountIn < MIN_TRADE_AMOUNT then
    .error "Amount too low (min 0.1 USDC)"
  else .ok ()

/-- GoDegen.sol lines 465-511: `getQuoteFromPool`. Verifies the pool
exists, verifies nonzero observed liquidity, calls the quoter, and rejects
a zero quoted amount (`require(amountOut > 0, "Quote returned zero
amount")`, line 494). The write to the `poolQuotes` cache is internal
bookkeeping (written here, deleted again on success in
`executeManualTrade`) and is not modelled as it does not affect any
observable result. -/
def getQuoteFromPool (env : ChainEnv) (tokenIn tokenOut : Address)
    (amountIn fee : Nat) : Except String Nat :=
  if env.getPool tokenIn tokenOut fee = 0 then .error "Pool does not exist"
  else if env.balanceOf tokenIn (env.getPool tokenIn tokenOut fee) = 0 then
    .error "Pool has no liquidity"
  else
    match env.quoteSingle tokenIn tokenOut fee amountIn with
    | .success amountOut =>
      if amountOut = 0 then .error "Quote returned zero amount"
      else .ok amountOut
    | .revertWith reason => .error ("Quote failed: " ++ reason)
    | .revertRaw =>
      .error "Pool may not be initialized - try a different fee tier"

/-- The `minAmountOut` expression of `executeManualTrade` (GoDegen.sol line
557), `quotedAmount * (10000 - MAX_SLIPPAGE) / 10000`, with the slippage
tolerance in basis points as a parameter. Division is `Nat` (truncating)
division, as in Solidity. -/
def minAmountOutCalc (quotedAmount slippageBps : Nat) : Nat :=
  quotedAmount * (10000 - slippageBps) / 10000

/-- Observable result of a successful `executeManualTrade` call: the quoted
amount, the `amountOutMinimum` passed to the router, the chosen fee tier,
and the swap's output amount. -/
structure TradeResult where
  quotedAmount : Nat
  minAmountOut : Nat
  fee : Nat
  amountOut : Nat
  deriving Repr, DecidableEq

/-- GoDegen.sol lines 537-609: `executeManualTrade`. Validates parameters,
finds the best pool, obtains the quote, computes `minAmountOut` with
`MAX_SLIPPAGE`, transfers the input via Permit2 (with the `uint160`
truncating cast of line 567), executes the swap, and requires
`amountOut >= minAmountOut`. The multiplication of line 557 is Solidity
0.8 checked arithmetic, so a product at or above `2 ^ 256` reverts. -/
def executeManualTrade (env : ChainEnv) (tokenIn tokenOut : Address)
    (amountIn : Nat) (recipient : Address) : Except String TradeResult :=
  match validateTradeParams env tokenIn tokenOut amountIn with
  | .error e => .error e
  | .ok _ =>
    match findBestPool env tokenIn tokenOut with
    | .error e => .error e
    | .ok (_, fee) =>
      match getQuoteFromPool env tokenIn tokenOut amountIn fee with
      | .error e => .error e
      | .ok quotedAmount =>
        if UINT256 ≤ quotedAmount * (10000 - MAX_SLIPPAGE) then
          .error "arithmetic overflow"
        else
          match env.permitTransfer (amountIn % UINT160) with
          | .revertWith reason => .error ("Transfer failed: " ++ reason)
          | .revertRaw =>
            .error "Transfer failed - check balance and allowance"
          | .success _ =>
            match env.swap tokenIn tokenOut fee amountIn
                (minAmountOutCalc quotedAmount MAX_SLIPPAGE) recipient with
            | .revertWith reason => .error reason
            | .revertRaw => .error "swap reverted"
            | .success amountOut =>
              if amountOut < minAmountOutCalc quotedAmount MAX_SLIPPAGE then
                .error "Insufficient output amount"
              else
                .ok ⟨quotedAmount, minAmountOutCalc quotedAmount MAX_SLIPPAGE,
                  fee, amountOut⟩

end GoDegen

namespace AutoTrading

/-- Big-endian byte decomposition of a 20-byte address, as produced by
`ethers.getBytes` on an address (AutoTrading.tsx lines 405 and 411). -/
def addressBytes (a : GoDegen.Address) : List Nat :=
  (List.range 20).map (fun i => a / 256 ^ (19 - i) % 256)

/-- The three fee bytes of AutoTrading.tsx lines 406-410:
`[fee & 0xff, (fee >> 8) & 0xff, (fee >> 16) & 0xff]`, written with
division and remainder (`(fee >> k) & 0xff` is `fee / 2 ^ k % 256`). -/
def feeBytes (fee : Nat) : List Nat :=
  [fee % 256, fee / 256 % 256, fee / 65536 % 256]

/-- AutoTrading.tsx lines 404-412: the byte path handed to
`quoteExactInput`, the concatenation `tokenIn ++ fee (3 bytes) ++
tokenOut`. -/
def encodedPath (tokenIn : GoDegen.Address) (fee : Nat)
    (tokenOut : GoDegen.Address) : List Nat :=
  addressBytes tokenIn ++ feeBytes fee ++ addressBytes tokenOut

/-- The two quoting collaborators of the front-end quote stage:
`directQuote` is `quoterContract.quoteExactInputSingle.staticCall` for the
selected pool's parameters, `pathQuote` is
`quoterContract.quoteExactInput.staticCall` applied to a byte path.
`.error msg` is a throwing/reverting call with message `msg`. -/
structure QuoterEnv where
  directQuote : Except String Nat
  pathQuote : List Nat → Except String Nat

/-- AutoTrading.tsx lines 430-455: the outer catch of the quote stage,
string-matching the escaped error message into a user-facing hard
failure. -/
def classifyQuoteError (msg : String) : String :=
  if msg.containsSubstr "missing revert data" then
    "Failed to get quote - pool may not be initialized or may have insufficient liquidity. Please try a smaller amount or verify the pool exists."
  else if msg.containsSubstr "insufficient liquidity" then
    "Pool has insufficient liquidity for this trade amount. Please try a smaller amount."
  else
    "Failed to get quote: " ++ msg ++
      " - Please try a different amount or check pool status"

/-- AutoTrading.tsx lines 393-429: the inner catch of the quote stage —
the single path-encoded attempt made after the direct quote throws or
returns zero. A zero or thrown path quote escapes to the outer catch
(lines 430-455) and is classified into a hard failure. In every result
the second component records the byte paths submitted to
`quoteExactInput` (always exactly this one). -/
def pathQuoteAttempt (qenv : QuoterEnv) (tokenIn tokenOut : GoDegen.Address)
    (fee : Nat) : Except String Nat × List (List Nat) :=
  match qenv.pathQuote (encodedPath tokenIn fee tokenOut) with
  | .ok amountOut =>
    if amountOut = 0 then
      (.error (classifyQuoteError
        "Quote returned zero tokens - insufficient liquidity"),
        [encodedPath tokenIn fee tokenOut])
    else (.ok amountOut, [encodedPath tokenIn fee tokenOut])
  | .error e =>
    (.error (classifyQuoteError e), [encodedPath tokenIn fee tokenOut])

/-- AutoTrading.tsx lines 365-455, entry point of the quote-resolution
stage: try the direct single-hop quote first; when it throws or returns
zero, perform the single path-encoded attempt. -/
def resolveQuote (qenv : QuoterEnv) (tokenIn tokenOut : GoDegen.Address)
    (fee : Nat) : Except String Nat × List (List Nat) :=
  match qenv.directQuote with
  | .ok amountOut =>
    if amountOut = 0 then pathQuoteAttempt qenv tokenIn tokenOut fee
    else (.ok amountOut, [])
  | .error _ => pathQuoteAttempt qenv tokenIn tokenOut fee

/-- AutoTrading.tsx lines 365-530: the quote stage followed by the trade
stage. The Boolean records whether execution reached the trade-submission
block (line 457 onward), which only happens when no error escaped the
quote stage; the submission itself is chain interaction abstracted away
here. -/
def quoteThenTrade (qenv : QuoterEnv) (tokenIn tokenOut : GoDegen.Address)
    (fee : Nat) : Except String Nat × Bool :=
  match resolveQuote qenv tokenIn tokenOut fee with
  | (.error e, _) => (.error e, false)
  | (.ok amountOut, _) => (.ok amountOut, true)

end AutoTrading

namespace TradingInterface

/-- TradingInterface.tsx line 724: `const TRADE_COOLDOWN = 5 * 60 * 1000;`
(milliseconds). -/
def TRADE_COOLDOWN : Int := 5 * 60 * 1000

/-- TradingInterface.tsx line 1266: `const MIN_AMOUNT =
ethers.parseUnits("0.1", 6);` (USDC base units). -/
def MIN_AMOUNT : Nat := 100000

/-- The oracle prediction consumed by `executeTrade` (confidence and risk
score are JavaScript numbers, honeypot a Boolean). -/
structure Prediction where
  confidence : Int
  riskScore : Int
  isHoneypot : Bool
  deriving Repr, DecidableEq

/-- The per-token settings consumed by `executeTrade`:
`tradeAmountValid` is the check of TradingInterface.tsx lines 1066-1068
(`tradeAmount` present and `parseFloat(tradeAmount) > 0`), `amountIn` is
`ethers.parseUnits(tradeAmount, 6)`. -/
structure TokenSettings where
  enabled : Bool
  tradeAmountValid : Bool
  amountIn : Nat
  minConfidence : Int
  maxRiskScore : Int
  deriving Repr, DecidableEq

/-- The external responses seen by one `executeTrade` run
(TradingInterface.tsx lines 1026-1398): the prediction after the initial
fetch, the token settings, the two whitelist reads, the
`checkPoolLiquidity` result, the USDC balance and allowance reads, the
`provider.call` simulation outcome, the mined receipt (`none`: no receipt
object; `some status`), and `Date.now()`. The approval transaction of
lines 1234-1245 is modelled as succeeding; a throwing approval would only
add one more failure path that leaves all state unchanged. -/
structure FrontendEnv where
  prediction : Option Prediction
  tokenSettings : Option TokenSettings
  usdcWhitelisted : Bool
  tokenWhitelisted : Bool
  hasLiquidity : Bool
  balance : Nat
  allowance : Nat
  simulationOk : Bool
  receipt : Option Bool
  now : Int

/-- Degen-mode warnings logged by TradingInterface.tsx lines 1168-1191. -/
inductive Warning where
  | lowConfidence
  | highRisk
  | honeypot
  deriving Repr, DecidableEq

/-- The classified outcome of one `executeTrade` run; each constructor is
one of the code's early returns or thrown errors, in source order. -/
inductive Outcome where
  | noPrediction
  | notEnabled
  | invalidAmount
  | notWhitelisted
  | noLiquidity
  | confidenceTooLow
  | riskTooHigh
  | honeypotBlocked
  | cooldownActive (remainingSeconds : Int)
  | insufficientBalance
  | amountTooSmall
  | simulationFailed
  | noReceipt
  | txReverted
  | success
  deriving Repr, DecidableEq

/-- Result of one `executeTrade` run: the outcome, the degen-mode warnings
logged, whether the swap transaction was submitted to the chain, and the
resulting `lastTradeTimes` map. -/
structure ExecResult where
  outcome : Outcome
  warnings : List Warning
  submitted : Bool
  lastTradeTimes : GoDegen.Address → Int

/-- TradingInterface.tsx lines 1159-1161: the seconds reported by an
active cooldown, `Math.ceil((TRADE_COOLDOWN - (Date.now() -
lastTradeTime)) / 1000)`. -/
def remainingSeconds (now lastTradeTime : Int) : Int :=
  ⌈((TRADE_COOLDOWN - (now - lastTradeTime) : Int) : ℚ) / 1000⌉

/-- TradingInterface.tsx lines 1193-1365: the execution phase entered after
all validation passed — balance check (line 1217), allowance/approval
(lines 1229-1245), minimum-amount check (line 1267), simulation (line
1296), submission (line 1333), receipt check (lines 1344-1354), and the
cooldown-timestamp update on success (lines 1362-1365). -/
def submitPhase (env : FrontendEnv) (s : TokenSettings)
    (token : GoDegen.Address) (lastTradeTimes : GoDegen.Address → Int)
    (warnings : List Warning) : ExecResult :=
  if env.balance < s.amountIn then
    ⟨.insufficientBalance, warnings, false, lastTradeTimes⟩
  else if s.amountIn < MIN_AMOUNT then
    ⟨.amountTooSmall, warnings, false, lastTradeTimes⟩
  else if ¬env.simulationOk then
    ⟨.simulationFailed, warnings, false, lastTradeTimes⟩
  else
    match env.receipt with
    | none => ⟨.noReceipt, warnings, true, lastTradeTimes⟩
    | some false => ⟨.txReverted, warnings, true, lastTradeTimes⟩
    | some true =>
      ⟨.success, warnings, true,
        fun a => if a = token then env.now else lastTradeTimes a⟩

/-- TradingInterface.tsx lines 1026-1398: the main `executeTrade`.
Checks run in source order: prediction availability (lines 1035-1050),
settings present and enabled (lines 1052-1063), trade amount (lines
1066-1077), whitelist (lines 1105-1119), pool liquidity (lines
1124-1132); then, when degen mode is off, the strict checks confidence →
risk → honeypot → cooldown (lines 1136-1167), and when degen mode is on,
one warning per failing check with execution continuing (lines
1168-1191); finally the execution phase. -/
def executeTrade (env : FrontendEnv) (degenMode : Bool)
    (token : GoDegen.Address) (lastTradeTimes : GoDegen.Address → Int) :
    ExecResult :=
  match env.prediction with
  | none => ⟨.noPrediction, [], false, lastTradeTimes⟩
  | some prediction =>
    match env.tokenSettings with
    | none => ⟨.notEnabled, [], false, lastTradeTimes⟩
    | some s =>
      if ¬s.enabled then ⟨.notEnabled, [], false, lastTradeTimes⟩
      else if ¬s.tradeAmountValid then
        ⟨.invalidAmount, [], false, lastTradeTimes⟩
      else if ¬(env.usdcWhitelisted && env.tokenWhitelisted) then
        ⟨.notWhitelisted, [], false, lastTradeTimes⟩
      else if ¬env.hasLiquidity then
        ⟨.noLiquidity, [], false, lastTradeTimes⟩
      else if ¬degenMode then
        if prediction.confidence < s.minConfidence then
          ⟨.confidenceTooLow, [], false, lastTradeTimes⟩
        else if prediction.riskScore > s.maxRiskScore then
          ⟨.riskTooHigh, [], false, lastTradeTimes⟩
        else if prediction.isHoneypot then
          ⟨.honeypotBlocked, [], false, lastTradeTimes⟩
        else if env.now - lastTradeTimes token < TRADE_COOLDOWN then
          ⟨.cooldownActive (remainingSeconds env.now (lastTradeTimes token)),
            [], false, lastTradeTimes⟩
        else submitPhase env s token lastTradeTimes []
      else
        let warnings :=
          (if prediction.confidence < s.minConfidence then
            [Warning.lowConfidence] else []) ++
          (if prediction.riskScore > s.maxRiskScore then
            [Warning.highRisk] else []) ++
          (if prediction.isHoneypot then [Warning.honeypot] else [])
        submitPhase env s token lastTradeTimes warnings

end TradingInterface

namespace PortfolioManager

/-- The contract state of PortfolioManager.sol read and written by
`withdraw`: each user's `Portfolio.isActive` flag and
`Portfolio.tokenBalances` mapping (`tokenBalances user token`). -/
structure PMState where
  isActive : GoDegen.Address → Bool
  tokenBalances : GoDegen.Address → GoDegen.Address → Nat

/-- PortfolioManager.sol lines 105-121: `withdraw(_token, _amount,
_recipient)` called by `sender`. The three `require`s run in source order
(active portfolio, nonzero recipient, sufficient recorded balance); on
success the recorded balance is decremented and the ERC-20 transfer to the
recipient (an external token-contract effect, not part of `PMState`)
follows. A returned `.error` is a revert: the caller's state is the
unchanged input state. -/
def withdraw (s : PMState) (sender token : GoDegen.Address) (amount : Nat)
    (recipient : GoDegen.Address) : Except String PMState :=
  if ¬s.isActive sender then .error "No active portfolio"
  else if recipient = 0 then .error "Invalid recipient"
  else if s.tokenBalances sender token < amount then
    .error "Insufficient balance"
  else
    .ok { s with
      tokenBalances := fun u t =>
        if u = sender ∧ t = token then s.tokenBalances sender token - amount
        else s.tokenBalances u t }

end PortfolioManager

/-- Whether an `Except` value is an error (a thrown JavaScript error or a
Solidity revert in this development). -/
def isErr {ε α : Type} : Except ε α → Bool
  | .error _ => true
  | .ok _ => false

namespace TradingInterface

/-- Whether an outcome is a cooldown rejection. -/
def isCooldownOutcome : Outcome → Bool
  | .cooldownActive _ => true
  | _ => false

/-- Whether an outcome is one of the strict-mode rejections (confidence,
risk, honeypot, cooldown). -/
def isPredictionRejection : Outcome → Bool
  | .confidenceTooLow => true
  | .riskTooHigh => true
  | .honeypotBlocked => true
  | .cooldownActive _ => true
  | _ => false

/-- An all-zero `lastTradeTimes` map (the code's default
`lastTradeTimes[tokenAddress] || 0`). -/
def lt0 : GoDegen.Address → Int := fun _ => 0

/-- A concrete front-end environment in which every check passes and the
transaction is mined successfully. -/
def happyEnv : FrontendEnv where
  prediction := some ⟨80, 10, false⟩
  tokenSettings := some ⟨true, true, 1000000, 50, 50⟩
  usdcWhitelisted := true
  tokenWhitelisted := true
  hasLiquidity := true
  balance := 10000000
  allowance := 10000000
  simulationOk := true
  receipt := some true
  now := 10000000

/-- `happyEnv` with a mined-but-reverted receipt. -/
def envRevert : FrontendEnv := { happyEnv with receipt := some false }

/-- `happyEnv` observed 1 second before the cooldown elapses (last trade at
time 0). -/
def envCooldownRej : FrontendEnv := { happyEnv with now := 299000 }

/-- `happyEnv` observed 1 second after the cooldown elapses (last trade at
time 0). -/
def envCooldownPass : FrontendEnv := { happyEnv with now := 301000 }

/-- `happyEnv` with a prediction failing all three strict checks. -/
def envDegen : FrontendEnv := { happyEnv with prediction := some ⟨10, 90, true⟩ }

/-- `happyEnv` with a low-confidence prediction and an active cooldown at
the same time. -/
def envBothFail : FrontendEnv :=
  { happyEnv with prediction := some ⟨10, 10, false⟩, now := 100000 }

end TradingInterface

namespace AutoTrading

/-- A quoter environment in which both the direct and the path-encoded
quote revert. -/
def qenvFail : QuoterEnv where
  directQuote := .error "direct quote reverted"
  pathQuote := fun _ => .error "path quote reverted"

end AutoTrading

namespace GoDegen

/-- A chain environment with two existing pools — address 7 at the 0.05%
(fee 500) tier and address 8 at the 0.3% (fee 3000) tier — holding equal
observed liquidity. -/
def tieEnv : ChainEnv where
  getPool := fun _ _ fee => if fee = 500 then 7 else if fee = 3000 then 8 else 0
  balanceOf := fun _ holder => if holder = 7 ∨ holder = 8 then 42 else 0
  quoteSingle := fun _ _ _ _ => .success 1
  permitTransfer := fun _ => .success ()
  swap := fun _ _ _ _ _ _ => .success 1
  whitelisted := fun _ => true

end GoDegen

namespace PortfolioManager

/-- A concrete portfolio state: user 1 has an active portfolio holding 100
base units of token 9; nobody else holds anything. -/
def pmSample : PMState where
  isActive := fun u => u == 1
  tokenBalances := fun u t => if u = 1 ∧ t = 9 then 100 else 0

end PortfolioManager

namespace GoDegen

/-- A concrete chain environment realizing the spec's end-to-end scenario:
a single pool (address 7) at the 0.05% (fee 500) tier holding
500,000,000,000 input-token base units, the quoter returning
40,000,000,000 output base units, and the Permit2 transfer and the swap
succeeding. -/
def sampleEnv : ChainEnv where
  getPool := fun _ _ fee => if fee = 500 then 7 else 0
  balanceOf := fun _ holder => if holder = 7 then 500000000000 else 0
  quoteSingle := fun _ _ _ _ => .success 40000000000
  permitTransfer := fun _ => .success ()
  swap := fun _ _ _ _ _ _ => .success 40000000000
  whitelisted := fun _ => true

/-- Inversion on a successful `getQuoteFromPool`: the returned quote is the
quoter's answer and is nonzero. -/
theorem getQuoteFromPool_ok (env : ChainEnv) (tokenIn tokenOut : Address)
    (amountIn fee : Nat) (q : Nat)
    (h : getQuoteFromPool env tokenIn tokenOut amountIn fee = .ok q) :
    0 < q ∧ env.quoteSingle tokenIn tokenOut fee amountIn = .success q := by
  unfold getQuoteFromPool at h
  split at h
  · simp at h
  split at h
  · simp at h
  split at h
  next amountOut heq =>
    by_cases hz : amountOut = 0
    · rw [if_pos hz] at h
      simp at h
    · rw [if_neg hz] at h
      obtain rfl : amountOut = q := by simpa using h
      exact ⟨Nat.pos_of_ne_zero hz, heq⟩
  next reason heq => simp at h
  next heq => simp at h

/-- Inversion on a successful `executeManualTrade`: the submitted
`amountOutMinimum` is exactly the `MAX_SLIPPAGE` formula applied to the
quoted amount, the quoted amount is nonzero, and the swap's output covers
the minimum. -/
theorem executeManualTrade_ok (env : ChainEnv) (tokenIn tokenOut : Address)
    (amountIn : Nat) (recipient : Address) (r : TradeResult)
    (h : executeManualTrade env tokenIn tokenOut amountIn recipient = .ok r) :
    r.minAmountOut = minAmountOutCalc r.quotedAmount MAX_SLIPPAGE ∧
    0 < r.quotedAmount ∧ r.minAmountOut ≤ r.amountOut := by
  unfold executeManualTrade at h
  split at h
  · simp at h
  split at h
  · simp at h
  rename_i pool fee hbp
  split at h
  · simp at h
  rename_i quotedAmount hq
  split at h
  · simp at h
  split at h
  · simp at h
  · simp at h
  split at h
  · simp at h
  · simp at h
  rename_i amountOut hsw
  split at h
  · simp at h
  rename_i hge
  obtain rfl : (⟨quotedAmount, minAmountOutCalc quotedAmount MAX_SLIPPAGE,
      fee, amountOut⟩ : TradeResult) = r := by simpa using h
  exact ⟨rfl,
    (getQuoteFromPool_ok env tokenIn tokenOut amountIn fee quotedAmount hq).1,
    Nat.le_of_not_lt hge⟩

end GoDegen

namespace AutoTrading

/-- Inversion on a successful path-encoded attempt: the quoted amount is
positive. -/
theorem pathQuoteAttempt_ok (qenv : QuoterEnv)
    (tokenIn tokenOut : GoDegen.Address) (fee q : Nat)
    (h : (pathQuoteAttempt qenv tokenIn tokenOut fee).1 = .ok q) : 0 < q := by
  unfold pathQuoteAttempt at h
  split at h
  next amountOut heq =>
    by_cases hz : amountOut = 0
    · rw [if_pos hz] at h
      simp at h
    · rw [if_neg hz] at h
      obtain rfl : amountOut = q := by simpa using h
      exact Nat.pos_of_ne_zero hz
  next e heq => simp at h

/-- Inversion on a successful quote-resolution stage: the quoted amount is
positive. -/
theorem resolveQuote_ok (qenv : QuoterEnv)
    (tokenIn tokenOut : GoDegen.Address) (fee q : Nat)
    (h : (resolveQuote qenv tokenIn tokenOut fee).1 = .ok q) : 0 < q := by
  unfold resolveQuote at h
  split at h
  next amountOut heq =>
    by_cases hz : amountOut = 0
    · rw [if_pos hz] at h
      exact pathQuoteAttempt_ok qenv tokenIn tokenOut fee q h
    · rw [if_neg hz] at h
      obtain rfl : amountOut = q := by simpa using h
      exact Nat.pos_of_ne_zero hz
  next e heq => exact pathQuoteAttempt_ok qenv tokenIn tokenOut fee q h

end AutoTrading

/-- C1: the claim says the executor submits the swap with `minAmountOut`
equal to the quoted amount times 0.95 (5% default slippage). It is false
on the code: `MAX_SLIPPAGE` is 5000 basis points, so in the spec's
end-to-end scenario (quote 40,000,000,000) the submitted
`amountOutMinimum` is 20,000,000,000, not 40,000,000,000 × 95 / 100 =
38,000,000,000. -/
theorem C1_counterexample :
    GoDegen.executeManualTrade GoDegen.sampleEnv 1 2 100000000 3 =
      .ok ⟨40000000000, 20000000000, 500, 40000000000⟩ ∧
    (20000000000 : Nat) ≠ 40000000000 * 95 / 100 := by
  constructor
  · rfl
  · decide

/-- C1 (amended): after a successful quote the executor submits the swap
with `minAmountOut` equal to the quoted amount multiplied by 0.5 — the
default slippage tolerance applied between quoting and execution is
`MAX_SLIPPAGE` = 5000 basis points, i.e. 50%. -/
theorem C1_amended_half_slippage :
    GoDegen.MAX_SLIPPAGE = 5000 ∧
    ∀ (env : GoDegen.ChainEnv) (tokenIn tokenOut : GoDegen.Address)
      (amountIn : Nat) (recipient : GoDegen.Address) (r : GoDegen.TradeResult),
      GoDegen.executeManualTrade env tokenIn tokenOut amountIn recipient =
        .ok r →
      r.minAmountOut = r.quotedAmount * (10000 - 5000) / 10000 ∧
      r.minAmountOut = r.quotedAmount / 2 := by
  refine ⟨rfl, fun env tokenIn tokenOut amountIn recipient r h => ?_⟩
  have h1 :=
    (GoDegen.executeManualTrade_ok env tokenIn tokenOut amountIn recipient r
      h).1
  have h2 : r.quotedAmount * (10000 - 5000) / 10000 = r.quotedAmount / 2 := by
    omega
  unfold GoDegen.minAmountOutCalc GoDegen.MAX_SLIPPAGE at h1
  exact ⟨h1, h1.trans h2⟩

/-- Witness for C1 (amended), instantiated at the end-to-end scenario
environment. -/
theorem C1_amended_half_slippage_witness :
    (⟨40000000000, 20000000000, 500, 40000000000⟩ :
        GoDegen.TradeResult).minAmountOut =
      (⟨40000000000, 20000000000, 500, 40000000000⟩ :
        GoDegen.TradeResult).quotedAmount * (10000 - 5000) / 10000 ∧
    (⟨40000000000, 20000000000, 500, 40000000000⟩ :
        GoDegen.TradeResult).minAmountOut =
      (⟨40000000000, 20000000000, 500, 40000000000⟩ :
        GoDegen.TradeResult).quotedAmount / 2 :=
  C1_amended_half_slippage.2 GoDegen.sampleEnv 1 2 100000000 3 _ (by rfl)

/-- C2: the minimum output amount used in the swap equals
`Q * (10000 - S) / 10000` with truncating integer division — the code's
expression agrees with the real-arithmetic floor `⌊Q * (1 - S/10000)⌋` for
every slippage tolerance `S ≤ 10000` basis points, a successful
`executeManualTrade` uses exactly this formula at `S = MAX_SLIPPAGE`, and
`Q = 1,000,000`, `S = 500` yield 950,000. -/
theorem C2_minAmountOut_formula :
    (∀ Q S : Nat, S ≤ 10000 →
      GoDegen.minAmountOutCalc Q S = ⌊(Q : ℚ) * (1 - (S : ℚ) / 10000)⌋₊) ∧
    (∀ (env : GoDegen.ChainEnv) (tokenIn tokenOut : GoDegen.Address)
      (amountIn : Nat) (recipient : GoDegen.Address) (r : GoDegen.TradeResult),
      GoDegen.executeManualTrade env tokenIn tokenOut amountIn recipient =
        .ok r →
      r.minAmountOut =
        r.quotedAmount * (10000 - GoDegen.MAX_SLIPPAGE) / 10000) ∧
    GoDegen.minAmountOutCalc 1000000 500 = 950000 := by
  refine ⟨fun Q S hS => ?_, fun env tokenIn tokenOut amountIn recipient r h =>
    (GoDegen.executeManualTrade_ok env tokenIn tokenOut amountIn recipient r
      h).1, by decide⟩
  have hsub : ((10000 - S : ℕ) : ℚ) = 10000 - (S : ℚ) := by
    have := Nat.cast_sub (R := ℚ) hS
    simpa using this
  have hcast : (Q : ℚ) * (1 - (S : ℚ) / 10000) =
      ((Q * (10000 - S) : ℕ) : ℚ) / ((10000 : ℕ) : ℚ) := by
    rw [Nat.cast_mul, hsub]
    push_cast
    ring
  rw [hcast, Nat.floor_div_nat, Nat.floor_natCast]
  rfl

/-- Witness for C2, instantiated at `Q = 123456789`, `S = 250`. -/
theorem C2_minAmountOut_formula_witness :
    GoDegen.minAmountOutCalc 123456789 250 =
      ⌊(123456789 : ℚ) * (1 - (250 : ℚ) / 10000)⌋₊ := by
  have h := C2_minAmountOut_formula.1 123456789 250 (by norm_num)
  simpa using h

/-- C3: a quoted amount of exactly 0 is treated as a failure and never
flows onward — `getQuoteFromPool` only succeeds with a positive quote and
reverts with "Quote returned zero amount" when the quoter answers 0, a
successful `executeManualTrade` (the only path submitting a swap) always
carries a positive quoted amount, and the front-end quote stage of
AutoTrading.tsx only succeeds with a positive amount. -/
theorem C3_zero_quote_is_failure :
    (∀ (env : GoDegen.ChainEnv) (tokenIn tokenOut : GoDegen.Address)
      (amountIn fee q : Nat),
      GoDegen.getQuoteFromPool env tokenIn tokenOut amountIn fee = .ok q →
      0 < q) ∧
    (∀ (env : GoDegen.ChainEnv) (tokenIn tokenOut : GoDegen.Address)
      (amountIn fee : Nat),
      env.getPool tokenIn tokenOut fee ≠ 0 →
      env.balanceOf tokenIn (env.getPool tokenIn tokenOut fee) ≠ 0 →
      env.quoteSingle tokenIn tokenOut fee amountIn = .success 0 →
      GoDegen.getQuoteFromPool env tokenIn tokenOut amountIn fee =
        .error "Quote returned zero amount") ∧
    (∀ (env : GoDegen.ChainEnv) (tokenIn tokenOut : GoDegen.Address)
      (amountIn : Nat) (recipient : GoDegen.Address) (r : GoDegen.TradeResult),
      GoDegen.executeManualTrade env tokenIn tokenOut amountIn recipient =
        .ok r →
      0 < r.quotedAmount) ∧
    (∀ (qenv : AutoTrading.QuoterEnv) (tokenIn tokenOut : GoDegen.Address)
      (fee q : Nat),
      (AutoTrading.resolveQuote qenv tokenIn tokenOut fee).1 = .ok q →
      0 < q) := by
  refine ⟨fun env tokenIn tokenOut amountIn fee q h =>
    (GoDegen.getQuoteFromPool_ok env tokenIn tokenOut amountIn fee q h).1,
    fun env tokenIn tokenOut amountIn fee hpool hliq hq => ?_,
    fun env tokenIn tokenOut amountIn recipient r h =>
    (GoDegen.executeManualTrade_ok env tokenIn tokenOut amountIn recipient r
      h).2.1,
    fun qenv tokenIn tokenOut fee q h =>
    AutoTrading.resolveQuote_ok qenv tokenIn tokenOut fee q h⟩
  unfold GoDegen.getQuoteFromPool
  rw [if_neg hpool, if_neg hliq, hq]
  rfl

/-- Witness for C3, instantiated at an environment whose quoter answers 0
for a pool that exists and has liquidity. -/
theorem C3_zero_quote_is_failure_witness :
    (1 : GoDegen.Address) ≠ 0 ∧
    GoDegen.getQuoteFromPool
      { getPool := fun _ _ _ => 1
        balanceOf := fun _ _ => 5
        quoteSingle := fun _ _ _ _ => .success 0
        permitTransfer := fun _ => .success ()
        swap := fun _ _ _ _ _ _ => .success 0
        whitelisted := fun _ => true } 1 2 100000000 500 =
      .error "Quote returned zero amount" :=
  ⟨by decide,
    C3_zero_quote_is_failure.2.1
      { getPool := fun _ _ _ => 1
        balanceOf := fun _ _ => 5
        quoteSingle := fun _ _ _ _ => .success 0
        permitTransfer := fun _ => .success ()
        swap := fun _ _ _ _ _ _ => .success 0
        whitelisted := fun _ => true } 1 2 100000000 500 (by decide)
      (by decide) rfl⟩

namespace TradingInterface

/-- The execution phase never produces a strict-mode rejection outcome:
its outcomes are exactly the balance/amount/simulation/receipt results. -/
theorem submitPhase_not_rejection (env : FrontendEnv) (s : TokenSettings)
    (token : GoDegen.Address) (lt : GoDegen.Address → Int)
    (w : List Warning) :
    isPredictionRejection (submitPhase env s token lt w).outcome = false := by
  unfold submitPhase
  split
  · rfl
  split
  · rfl
  split
  · rfl
  split <;> rfl

/-- The execution phase never produces a cooldown rejection. -/
theorem submitPhase_not_cooldown (env : FrontendEnv) (s : TokenSettings)
    (token : GoDegen.Address) (lt : GoDegen.Address → Int)
    (w : List Warning) :
    isCooldownOutcome (submitPhase env s token lt w).outcome = false := by
  unfold submitPhase
  split
  · rfl
  split
  · rfl
  split
  · rfl
  split <;> rfl

/-- The execution phase reports exactly the warnings it was given. -/
theorem submitPhase_warnings (env : FrontendEnv) (s : TokenSettings)
    (token : GoDegen.Address) (lt : GoDegen.Address → Int)
    (w : List Warning) :
    (submitPhase env s token lt w).warnings = w := by
  unfold submitPhase
  split
  · rfl
  split
  · rfl
  split
  · rfl
  split <;> rfl

/-- The execution phase updates `lastTradeTimes` at exactly the traded
token, and only on a successful receipt. -/
theorem submitPhase_lastTrade (env : FrontendEnv) (s : TokenSettings)
    (token : GoDegen.Address) (lt : GoDegen.Address → Int)
    (w : List Warning) :
    ((submitPhase env s token lt w).outcome = .success →
      (submitPhase env s token lt w).lastTradeTimes token = env.now ∧
      ∀ a, a ≠ token →
        (submitPhase env s token lt w).lastTradeTimes a = lt a) ∧
    ((submitPhase env s token lt w).outcome ≠ .success →
      (submitPhase env s token lt w).lastTradeTimes = lt) := by
  unfold submitPhase
  split
  · exact ⟨fun h => absurd h (by simp), fun _ => rfl⟩
  split
  · exact ⟨fun h => absurd h (by simp), fun _ => rfl⟩
  split
  · exact ⟨fun h => absurd h (by simp), fun _ => rfl⟩
  split
  · exact ⟨fun h => absurd h (by simp), fun _ => rfl⟩
  · exact ⟨fun h => absurd h (by simp), fun _ => rfl⟩
  · exact ⟨fun _ => ⟨by simp, fun a ha => by simp [ha]⟩,
      fun h => absurd rfl h⟩

end TradingInterface

/-- C4: when the direct single-hop quote throws or returns zero, the quote
stage makes exactly one path-encoded attempt — over the byte path
`tokenIn ++ fee (3 bytes) ++ tokenOut`, whose three fee bytes decode back
to the fee tier — before failing; and when that attempt also throws or
returns zero, the overall result is a hard quote failure and the trade
stage is never reached. -/
theorem C4_path_fallback (qenv : AutoTrading.QuoterEnv)
    (tokenIn tokenOut : GoDegen.Address) (fee : Nat)
    (hdirect : isErr qenv.directQuote = true ∨ qenv.directQuote = .ok 0) :
    (AutoTrading.resolveQuote qenv tokenIn tokenOut fee).2 =
      [AutoTrading.encodedPath tokenIn fee tokenOut] ∧
    AutoTrading.encodedPath tokenIn fee tokenOut =
      AutoTrading.addressBytes tokenIn ++ AutoTrading.feeBytes fee ++
        AutoTrading.addressBytes tokenOut ∧
    (∀ b0 b1 b2, AutoTrading.feeBytes fee = [b0, b1, b2] → fee < 2 ^ 24 →
      b0 + 256 * b1 + 65536 * b2 = fee) ∧
    (∀ v, qenv.pathQuote (AutoTrading.encodedPath tokenIn fee tokenOut) =
        .ok v → v ≠ 0 →
      (AutoTrading.resolveQuote qenv tokenIn tokenOut fee).1 = .ok v) ∧
    ((isErr (qenv.pathQuote (AutoTrading.encodedPath tokenIn fee tokenOut)) =
        true ∨
      qenv.pathQuote (AutoTrading.encodedPath tokenIn fee tokenOut) =
        .ok 0) →
      isErr (AutoTrading.resolveQuote qenv tokenIn tokenOut fee).1 = true ∧
      (AutoTrading.quoteThenTrade qenv tokenIn tokenOut fee).2 = false) := by
  have hres : AutoTrading.resolveQuote qenv tokenIn tokenOut fee =
      AutoTrading.pathQuoteAttempt qenv tokenIn tokenOut fee := by
    unfold AutoTrading.resolveQuote
    rcases hd : qenv.directQuote with e | v
    · rfl
    · rcases hdirect with he | h0
      · rw [hd] at he
        simp [isErr] at he
      · rw [hd] at h0
        obtain rfl : v = 0 := by simpa using h0
        simp
  have hsnd : (AutoTrading.pathQuoteAttempt qenv tokenIn tokenOut fee).2 =
      [AutoTrading.encodedPath tokenIn fee tokenOut] := by
    unfold AutoTrading.pathQuoteAttempt
    split
    · split <;> rfl
    · rfl
  refine ⟨by rw [hres, hsnd], rfl, ?_, ?_, ?_⟩
  · intro b0 b1 b2 heq hlt
    unfold AutoTrading.feeBytes at heq
    obtain ⟨rfl, rfl, rfl⟩ : fee % 256 = b0 ∧ fee / 256 % 256 = b1 ∧
        fee / 65536 % 256 = b2 := by simpa using heq
    omega
  · intro v hv hvz
    rw [hres]
    unfold AutoTrading.pathQuoteAttempt
    rw [hv]
    simp [hvz]
  · intro hpath
    have herr :
        isErr (AutoTrading.pathQuoteAttempt qenv tokenIn tokenOut fee).1 =
          true := by
      unfold AutoTrading.pathQuoteAttempt
      rcases hq : qenv.pathQuote (AutoTrading.encodedPath tokenIn fee tokenOut)
          with e | v
      · rfl
      · rcases hpath with he | h0
        · rw [hq] at he
          simp [isErr] at he
        · rw [hq] at h0
          obtain rfl : v = 0 := by simpa using h0
          simp [isErr]
    refine ⟨by rw [hres]; exact herr, ?_⟩
    unfold AutoTrading.quoteThenTrade
    rw [hres]
    rcases hpa : AutoTrading.pathQuoteAttempt qenv tokenIn tokenOut fee
        with ⟨res, log⟩
    rcases res with e | v
    · rfl
    · rw [hpa] at herr
      simp [isErr] at herr

/-- Witness for C4, instantiated at a quoter environment in which both
attempts revert. -/
theorem C4_path_fallback_witness :
    (AutoTrading.resolveQuote AutoTrading.qenvFail 1 2 500).2 =
      [AutoTrading.encodedPath 1 500 2] ∧
    isErr (AutoTrading.resolveQuote AutoTrading.qenvFail 1 2 500).1 = true ∧
    (AutoTrading.quoteThenTrade AutoTrading.qenvFail 1 2 500).2 = false := by
  have h := C4_path_fallback AutoTrading.qenvFail 1 2 500 (Or.inl rfl)
  exact ⟨h.1, (h.2.2.2.2 (Or.inl rfl)).1, (h.2.2.2.2 (Or.inl rfl)).2⟩

/-- C5: with strict mode active and every earlier check passing, a trade
attempt launched while `now - lastTradeTime < TRADE_COOLDOWN` is rejected
with the cooldown outcome reporting `⌈(TRADE_COOLDOWN - elapsed) / 1000⌉`
remaining seconds, and an attempt with `now - lastTradeTime ≥
TRADE_COOLDOWN` passes the cooldown check (its outcome is never a cooldown
rejection). -/
theorem C5_cooldown_window (env : TradingInterface.FrontendEnv)
    (p : TradingInterface.Prediction) (s : TradingInterface.TokenSettings)
    (token : GoDegen.Address) (lt : GoDegen.Address → Int)
    (hp : env.prediction = some p) (hs : env.tokenSettings = some s)
    (hen : s.enabled = true) (hamt : s.tradeAmountValid = true)
    (hw1 : env.usdcWhitelisted = true) (hw2 : env.tokenWhitelisted = true)
    (hliq : env.hasLiquidity = true)
    (hconf : ¬p.confidence < s.minConfidence)
    (hrisk : ¬p.riskScore > s.maxRiskScore)
    (hhp : p.isHoneypot = false) :
    (env.now - lt token < TradingInterface.TRADE_COOLDOWN →
      (TradingInterface.executeTrade env false token lt).outcome =
        .cooldownActive
          (TradingInterface.remainingSeconds env.now (lt token))) ∧
    (TradingInterface.TRADE_COOLDOWN ≤ env.now - lt token →
      TradingInterface.isCooldownOutcome
        (TradingInterface.executeTrade env false token lt).outcome =
        false) := by
  constructor
  · intro hcool
    unfold TradingInterface.executeTrade
    rw [hp, hs]
    simp [hen, hamt, hw1, hw2, hliq, hconf, hrisk, hhp, hcool]
  · intro hcool
    unfold TradingInterface.executeTrade
    rw [hp, hs]
    simp [hen, hamt, hw1, hw2, hliq, hconf, hrisk, hhp, not_lt.mpr hcool,
      TradingInterface.submitPhase_not_cooldown]

/-- Witness for C5: with the last trade at time 0, an attempt 1 second
before the cooldown elapses is rejected with a cooldown outcome and an
attempt 1 second after it passes the cooldown check. -/
theorem C5_cooldown_window_witness :
    TradingInterface.isCooldownOutcome
      (TradingInterface.executeTrade TradingInterface.envCooldownRej false 5
        TradingInterface.lt0).outcome = true ∧
    TradingInterface.isCooldownOutcome
      (TradingInterface.executeTrade TradingInterface.envCooldownPass false 5
        TradingInterface.lt0).outcome = false := by
  constructor
  · have h := (C5_cooldown_window TradingInterface.envCooldownRej ⟨80, 10, false⟩
      ⟨true, true, 1000000, 50, 50⟩ 5 TradingInterface.lt0 rfl rfl rfl rfl rfl
      rfl rfl (by decide) (by decide) rfl).1 (by decide)
    rw [h]
    rfl
  · exact (C5_cooldown_window TradingInterface.envCooldownPass ⟨80, 10, false⟩
      ⟨true, true, 1000000, 50, 50⟩ 5 TradingInterface.lt0 rfl rfl rfl rfl rfl
      rfl rfl (by decide) (by decide) rfl).2 (by decide)

set_option maxHeartbeats 1600000 in
/-- C6: the per-token cooldown timestamp is advanced (to `Date.now()`) only
when the mined receipt reports success, and only for the traded token; on
every other outcome — any validation rejection, any strict-mode rejection,
balance/amount/simulation failure, missing receipt, or a mined-but-reverted
receipt — the `lastTradeTimes` map is left unchanged. -/
theorem C6_cooldown_frame (env : TradingInterface.FrontendEnv)
    (degenMode : Bool) (token : GoDegen.Address)
    (lt : GoDegen.Address → Int) :
    ((TradingInterface.executeTrade env degenMode token lt).outcome =
        .success →
      (TradingInterface.executeTrade env degenMode token lt).lastTradeTimes
          token = env.now ∧
      ∀ a, a ≠ token →
        (TradingInterface.executeTrade env degenMode token lt).lastTradeTimes
          a = lt a) ∧
    ((TradingInterface.executeTrade env degenMode token lt).outcome ≠
        .success →
      (TradingInterface.executeTrade env degenMode token lt).lastTradeTimes =
        lt) := by
  unfold TradingInterface.executeTrade
  split
  · exact ⟨fun h => absurd h (by simp), fun _ => rfl⟩
  split
  · exact ⟨fun h => absurd h (by simp), fun _ => rfl⟩
  split
  · exact ⟨fun h => absurd h (by simp), fun _ => rfl⟩
  split
  · exact ⟨fun h => absurd h (by simp), fun _ => rfl⟩
  split
  · exact ⟨fun h => absurd h (by simp), fun _ => rfl⟩
  split
  · exact ⟨fun h => absurd h (by simp), fun _ => rfl⟩
  split
  · split
    · exact ⟨fun h => absurd h (by simp), fun _ => rfl⟩
    split
    · exact ⟨fun h => absurd h (by simp), fun _ => rfl⟩
    split
    · exact ⟨fun h => absurd h (by simp), fun _ => rfl⟩
    split
    · exact ⟨fun h => absurd h (by simp), fun _ => rfl⟩
    · exact TradingInterface.submitPhase_lastTrade env _ token lt []
  · exact TradingInterface.submitPhase_lastTrade env _ token lt _

/-- Witness for C6: a successful run stamps the traded token with the
current time; a mined-but-reverted run leaves the map unchanged. -/
theorem C6_cooldown_frame_witness :
    (TradingInterface.executeTrade TradingInterface.happyEnv false 5
        TradingInterface.lt0).lastTradeTimes 5 =
      TradingInterface.happyEnv.now ∧
    (TradingInterface.executeTrade TradingInterface.envRevert false 5
        TradingInterface.lt0).lastTradeTimes = TradingInterface.lt0 := by
  constructor
  · exact ((C6_cooldown_frame TradingInterface.happyEnv false 5
      TradingInterface.lt0).1 (by decide)).1
  · exact (C6_cooldown_frame TradingInterface.envRevert false 5
      TradingInterface.lt0).2 (by decide)

/-- C7: in bypass (degen) mode each failing strict check is logged as a
warning — low confidence, high risk, honeypot — and evaluation continues
to the execution phase instead of rejecting (the outcome is never a
strict-mode rejection); in strict mode a prediction whose confidence is
below the configured minimum is rejected with the confidence outcome
before any transaction is submitted. -/
theorem C7_degen_bypass (env : TradingInterface.FrontendEnv)
    (p : TradingInterface.Prediction) (s : TradingInterface.TokenSettings)
    (token : GoDegen.Address) (lt : GoDegen.Address → Int)
    (hp : env.prediction = some p) (hs : env.tokenSettings = some s)
    (hen : s.enabled = true) (hamt : s.tradeAmountValid = true)
    (hw1 : env.usdcWhitelisted = true) (hw2 : env.tokenWhitelisted = true)
    (hliq : env.hasLiquidity = true) :
    ((p.confidence < s.minConfidence →
      TradingInterface.Warning.lowConfidence ∈
        (TradingInterface.executeTrade env true token lt).warnings) ∧
     (p.riskScore > s.maxRiskScore →
      TradingInterface.Warning.highRisk ∈
        (TradingInterface.executeTrade env true token lt).warnings) ∧
     (p.isHoneypot = true →
      TradingInterface.Warning.honeypot ∈
        (TradingInterface.executeTrade env true token lt).warnings) ∧
     TradingInterface.isPredictionRejection
       (TradingInterface.executeTrade env true token lt).outcome = false) ∧
    (p.confidence < s.minConfidence →
      (TradingInterface.executeTrade env false token lt).outcome =
        .confidenceTooLow ∧
      (TradingInterface.executeTrade env false token lt).submitted =
        false) := by
  have hdeg : TradingInterface.executeTrade env true token lt =
      TradingInterface.submitPhase env s token lt
        ((if p.confidence < s.minConfidence then
            [TradingInterface.Warning.lowConfidence] else []) ++
          (if p.riskScore > s.maxRiskScore then
            [TradingInterface.Warning.highRisk] else []) ++
          (if p.isHoneypot then [TradingInterface.Warning.honeypot]
            else [])) := by
    unfold TradingInterface.executeTrade
    rw [hp, hs]
    simp [hen, hamt, hw1, hw2, hliq]
  refine ⟨⟨fun hc => ?_, fun hr => ?_, fun hh => ?_, ?_⟩, fun hc => ?_⟩
  · rw [hdeg, TradingInterface.submitPhase_warnings, if_pos hc]
    simp
  · rw [hdeg, TradingInterface.submitPhase_warnings, if_pos hr]
    simp
  · rw [hdeg, TradingInterface.submitPhase_warnings, hh]
    simp
  · rw [hdeg]
    exact TradingInterface.submitPhase_not_rejection env s token lt _
  · have hstrict : TradingInterface.executeTrade env false token lt =
        ⟨.confidenceTooLow, [], false, lt⟩ := by
      unfold TradingInterface.executeTrade
      rw [hp, hs]
      simp [hen, hamt, hw1, hw2, hliq, hc]
    rw [hstrict]
    exact ⟨rfl, rfl⟩

/-- Witness for C7: a degen-mode run with a prediction failing all three
checks logs all three warnings and still reaches the execution phase; the
same prediction in strict mode is rejected for low confidence without
submitting. -/
theorem C7_degen_bypass_witness :
    TradingInterface.Warning.lowConfidence ∈
      (TradingInterface.executeTrade TradingInterface.envDegen true 5
        TradingInterface.lt0).warnings ∧
    TradingInterface.Warning.highRisk ∈
      (TradingInterface.executeTrade TradingInterface.envDegen true 5
        TradingInterface.lt0).warnings ∧
    TradingInterface.Warning.honeypot ∈
      (TradingInterface.executeTrade TradingInterface.envDegen true 5
        TradingInterface.lt0).warnings ∧
    TradingInterface.isPredictionRejection
      (TradingInterface.executeTrade TradingInterface.envDegen true 5
        TradingInterface.lt0).outcome = false ∧
    (TradingInterface.executeTrade TradingInterface.envDegen false 5
      TradingInterface.lt0).outcome = .confidenceTooLow ∧
    (TradingInterface.executeTrade TradingInterface.envDegen false 5
      TradingInterface.lt0).submitted = false := by
  have h := C7_degen_bypass TradingInterface.envDegen ⟨10, 90, true⟩
    ⟨true, true, 1000000, 50, 50⟩ 5 TradingInterface.lt0 rfl rfl rfl rfl rfl
    rfl rfl
  exact ⟨h.1.1 (by decide), h.1.2.1 (by decide), h.1.2.2.1 rfl, h.1.2.2.2,
    (h.2 (by decide)).1, (h.2 (by decide)).2⟩

/-- C8: the claim says the cooldown check runs before the prediction
checks, so an attempt failing both is rejected with the cooldown reason.
It is false on the code: in `envBothFail` the prediction confidence (10)
is below the minimum (50) and the cooldown is simultaneously active
(100000 ms elapsed < 300000 ms), yet the outcome is the confidence
rejection, not a cooldown rejection. -/
theorem C8_counterexample :
    (TradingInterface.executeTrade TradingInterface.envBothFail false 5
      TradingInterface.lt0).outcome = .confidenceTooLow ∧
    TradingInterface.envBothFail.now - TradingInterface.lt0 5 <
      TradingInterface.TRADE_COOLDOWN ∧
    (10 : Int) < 50 ∧
    TradingInterface.Outcome.confidenceTooLow ≠
      .cooldownActive (TradingInterface.remainingSeconds
        TradingInterface.envBothFail.now (TradingInterface.lt0 5)) := by
  refine ⟨by decide, by decide, by decide, fun h => ?_⟩
  exact TradingInterface.Outcome.noConfusion h

/-- C8 (amended): the validator's checks run in the source order — enabled,
amount, whitelist, liquidity, then (in strict mode) confidence, risk,
honeypot, and the cooldown check last — so the cooldown check runs after
the prediction-threshold checks: a cooldown rejection implies all three
prediction checks passed, and an attempt failing both a prediction
threshold and the cooldown is rejected with the prediction reason. -/
theorem C8_amended_cooldown_last (env : TradingInterface.FrontendEnv)
    (p : TradingInterface.Prediction) (s : TradingInterface.TokenSettings)
    (token : GoDegen.Address) (lt : GoDegen.Address → Int)
    (hp : env.prediction = some p) (hs : env.tokenSettings = some s)
    (hen : s.enabled = true) (hamt : s.tradeAmountValid = true)
    (hw1 : env.usdcWhitelisted = true) (hw2 : env.tokenWhitelisted = true)
    (hliq : env.hasLiquidity = true) :
    (∀ rsec,
      (TradingInterface.executeTrade env false token lt).outcome =
        .cooldownActive rsec →
      ¬p.confidence < s.minConfidence ∧ ¬p.riskScore > s.maxRiskScore ∧
        p.isHoneypot = false) ∧
    (p.confidence < s.minConfidence →
      env.now - lt token < TradingInterface.TRADE_COOLDOWN →
      (TradingInterface.executeTrade env false token lt).outcome =
        .confidenceTooLow) := by
  have hconfRed : ∀ hc : p.confidence < s.minConfidence,
      (TradingInterface.executeTrade env false token lt).outcome =
        .confidenceTooLow := by
    intro hc
    unfold TradingInterface.executeTrade
    rw [hp, hs]
    simp [hen, hamt, hw1, hw2, hliq, hc]
  refine ⟨fun rsec hout => ?_, fun hc _ => hconfRed hc⟩
  by_cases hc : p.confidence < s.minConfidence
  · rw [hconfRed hc] at hout
    exact absurd hout (by simp)
  by_cases hr : p.riskScore > s.maxRiskScore
  · have h1 : (TradingInterface.executeTrade env false token lt).outcome =
        .riskTooHigh := by
      unfold TradingInterface.executeTrade
      rw [hp, hs]
      simp [hen, hamt, hw1, hw2, hliq, hc, hr]
    rw [h1] at hout
    exact absurd hout (by simp)
  by_cases hh : p.isHoneypot
  · have h1 : (TradingInterface.executeTrade env false token lt).outcome =
        .honeypotBlocked := by
      unfold TradingInterface.executeTrade
      rw [hp, hs]
      simp [hen, hamt, hw1, hw2, hliq, hc, hr, hh]
    rw [h1] at hout
    exact absurd hout (by simp)
  · exact ⟨hc, hr, by simpa using hh⟩

/-- Witness for C8 (amended): in an environment whose run is rejected by
the cooldown, the prediction checks had passed; and in `envBothFail` the
confidence rejection wins over the active cooldown. -/
theorem C8_amended_cooldown_last_witness :
    (¬(80 : Int) < 50 ∧ ¬(10 : Int) > 50 ∧ false = false) ∧
    (TradingInterface.executeTrade TradingInterface.envBothFail false 5
      TradingInterface.lt0).outcome = .confidenceTooLow := by
  constructor
  · exact (C8_amended_cooldown_last TradingInterface.envCooldownRej
      ⟨80, 10, false⟩ ⟨true, true, 1000000, 50, 50⟩ 5 TradingInterface.lt0
      rfl rfl rfl rfl rfl rfl rfl).1
      (TradingInterface.remainingSeconds TradingInterface.envCooldownRej.now
        (TradingInterface.lt0 5))
      (by
        unfold TradingInterface.executeTrade
        simp +decide [TradingInterface.envCooldownRej,
          TradingInterface.happyEnv, TradingInterface.lt0,
          TradingInterface.TRADE_COOLDOWN])
  · exact (C8_amended_cooldown_last TradingInterface.envBothFail
      ⟨10, 10, false⟩ ⟨true, true, 1000000, 50, 50⟩ 5 TradingInterface.lt0
      rfl rfl rfl rfl rfl rfl rfl).2 (by decide) (by decide)

set_option maxHeartbeats 1600000 in
/-- C9: `findBestPool` scans the fee tiers in the fixed preferred order
[500, 3000, 100, 10000] and a candidate replaces the current best only on
strictly greater observed liquidity (the input token's balance in the
pool); hence when exactly two pools exist and their observed liquidity is
equal, the pool at the tier appearing earlier in the preferred order is
selected. -/
theorem C9_tie_prefers_earlier_tier (env : GoDegen.ChainEnv)
    (tokenIn tokenOut : GoDegen.Address) (f g : Nat)
    (p q : GoDegen.Address) (L : Nat)
    (hf : f ∈ GoDegen.preferredFees) (hg : g ∈ GoDegen.preferredFees)
    (horder : GoDegen.preferredFees.indexOf f <
      GoDegen.preferredFees.indexOf g)
    (hp : p ≠ 0) (hq : q ≠ 0)
    (hpf : env.getPool tokenIn tokenOut f = p)
    (hqg : env.getPool tokenIn tokenOut g = q)
    (hrest : ∀ k ∈ GoDegen.preferredFees, k ≠ f → k ≠ g →
      env.getPool tokenIn tokenOut k = 0)
    (hLp : env.balanceOf tokenIn p = L)
    (hLq : env.balanceOf tokenIn q = L) :
    GoDegen.findBestPool env tokenIn tokenOut = .ok (p, f) := by
  simp only [GoDegen.preferredFees] at hf hg
  subst hLp
  fin_cases hf <;> fin_cases hg <;>
    first
      | exact absurd horder (by decide)
      | (first
          | have e1 := hrest 100 (by decide) (by decide) (by decide)
          | skip
         first
          | have e2 := hrest 500 (by decide) (by decide) (by decide)
          | skip
         first
          | have e3 := hrest 3000 (by decide) (by decide) (by decide)
          | skip
         first
          | have e4 := hrest 10000 (by decide) (by decide) (by decide)
          | skip
         rcases Nat.eq_zero_or_pos (env.balanceOf tokenIn p) with hL | hL <;>
           simp_all [GoDegen.findBestPool, GoDegen.findBestLoop,
             GoDegen.firstExistingPool, GoDegen.preferredFees])

/-- Witness for C9: with equal-liquidity pools at the 0.05% and 0.3% tiers,
`findBestPool` picks the 0.05% pool, the earlier preferred tier. -/
theorem C9_tie_prefers_earlier_tier_witness :
    GoDegen.findBestPool GoDegen.tieEnv 1 2 = .ok (7, 500) :=
  C9_tie_prefers_earlier_tier GoDegen.tieEnv 1 2 500 3000 7 8 42
    (by decide) (by decide) (by decide) (by decide) (by decide) rfl rfl
    (by decide) rfl rfl

/-- C10: `PortfolioManager.withdraw` succeeds exactly when the caller has
an active portfolio, the recipient is nonzero, and the caller's recorded
balance of the token covers the amount; on success it decreases exactly
that recorded balance by exactly the amount, touching no other recorded
balance and no activity flag, and on any failed precondition it reverts
(no successor state). -/
theorem C10_withdraw_spec (s : PortfolioManager.PMState)
    (sender token : GoDegen.Address) (amount : Nat)
    (recipient : GoDegen.Address) :
    ((∃ s', PortfolioManager.withdraw s sender token amount recipient =
        .ok s') ↔
      (s.isActive sender = true ∧ recipient ≠ 0 ∧
        amount ≤ s.tokenBalances sender token)) ∧
    (∀ s', PortfolioManager.withdraw s sender token amount recipient =
        .ok s' →
      s'.tokenBalances sender token = s.tokenBalances sender token - amount ∧
      (∀ u t, ¬(u = sender ∧ t = token) →
        s'.tokenBalances u t = s.tokenBalances u t) ∧
      s'.isActive = s.isActive) := by
  unfold PortfolioManager.withdraw
  by_cases h1 : s.isActive sender = true
  · rw [if_neg (by simp [h1])]
    by_cases h2 : recipient = 0
    · rw [if_pos h2]
      refine ⟨⟨fun ⟨s', hs'⟩ => by simp at hs', fun ⟨_, hrec, _⟩ =>
        absurd h2 hrec⟩, fun s' hs' => by simp at hs'⟩
    · rw [if_neg h2]
      by_cases h3 : s.tokenBalances sender token < amount
      · rw [if_pos h3]
        refine ⟨⟨fun ⟨s', hs'⟩ => by simp at hs', fun ⟨_, _, hle⟩ =>
          absurd h3 (Nat.not_lt.mpr hle)⟩, fun s' hs' => by simp at hs'⟩
      · rw [if_neg h3]
        refine ⟨⟨fun _ => ⟨h1, h2, Nat.le_of_not_lt h3⟩,
          fun _ => ⟨_, rfl⟩⟩, fun s' hs' => ?_⟩
        obtain rfl : ({ s with
            tokenBalances := fun u t =>
              if u = sender ∧ t = token then
                s.tokenBalances sender token - amount
              else s.tokenBalances u t } : PortfolioManager.PMState) = s' := by
          simpa using hs'
        exact ⟨by simp, fun u t hut => by simp [hut], rfl⟩
  · rw [if_pos (by simpa using h1)]
    refine ⟨⟨fun ⟨s', hs'⟩ => by simp at hs', fun ⟨ha, _, _⟩ =>
      absurd ha h1⟩, fun s' hs' => by simp at hs'⟩

/-- Witness for C10: user 1 withdraws 40 of their 100 recorded units of
token 9 to recipient 3; the recorded balance drops to exactly 60 and the
success conditions hold. -/
theorem C10_withdraw_spec_witness :
    (PortfolioManager.pmSample.isActive 1 = true ∧ (3 : GoDegen.Address) ≠ 0 ∧
      40 ≤ PortfolioManager.pmSample.tokenBalances 1 9) ∧
    ({ PortfolioManager.pmSample with
        tokenBalances := fun u t =>
          if u = 1 ∧ t = 9 then
            PortfolioManager.pmSample.tokenBalances 1 9 - 40
          else PortfolioManager.pmSample.tokenBalances u t } :
      PortfolioManager.PMState).tokenBalances 1 9 =
      PortfolioManager.pmSample.tokenBalances 1 9 - 40 :=
  ⟨(C10_withdraw_spec PortfolioManager.pmSample 1 9 40 3).1.mp
      ⟨{ PortfolioManager.pmSample with
          tokenBalances := fun u t =>
            if u = 1 ∧ t = 9 then
              PortfolioManager.pmSample.tokenBalances 1 9 - 40
            else PortfolioManager.pmSample.tokenBalances u t }, by rfl⟩,
    ((C10_withdraw_spec PortfolioManager.pmSample 1 9 40 3).2 _ (by rfl)).1⟩
